import Mathlib

/-!
Shallow embedding of the batch-job engine of the Spectograms-Picturizer
repository (src/app.py, src/batch_processor.py, src/backend/utils.py,
src/config.py) and proofs about it.

The store `batch_status = {'data': {}, 'lock': ...}` keyed by a single
session id is modelled as an `Option` of the record for that id: `none`
means the id is absent (never uploaded, or deleted by `delete_session`).
Mutations through `batch_status['data'][session_id]` raise `KeyError`
when the id is absent; this is modelled by `Except String`, where
`Except.error` is a raised Python exception.

External collaborators (`generate_spectrograms`, `extract_all_features`,
the filesystem, pandas/json inside `_save_features`) are modelled by an
environment: a `FileRun` per file fixing whether the upload exists and
how each timeout-wrapped step behaves, and two `Option String` values for
the two ways `_save_features` can misbehave.
-/

namespace Spectro

/-- File entry as stored in a session's `files` list by
`app.upload_files_only` (src/app.py lines 79-83). -/
structure FileInfo where
  original_name : String
  saved_name : String
  deriving Repr, DecidableEq

/-- One `{file, message}` entry of a job's `errors` list. -/
structure ErrorEntry where
  file : String
  message : String
  deriving Repr, DecidableEq

/-- Record appended to `all_features` for a file whose feature extraction
returned a non-empty mapping (src/batch_processor.py lines 104-107). -/
structure FeatRecord where
  features : List (String × Int)
  filename : String
  session_id : String
  deriving Repr, DecidableEq

/-- Processing fields written into a session's record by
`app.process_uploaded_files` (src/app.py lines 179-188) and mutated by the
worker. Timestamps are abstract `Nat` clock values. -/
structure JobRecord where
  status : String
  total_files : Nat
  processed_count : Nat
  current_file : Option String
  errors : List ErrorEntry
  start_time : Nat
  end_time : Option Nat
  selected_types : List String
  deriving Repr, DecidableEq

/-- Fields set by the `batch_status['data'][session_id].update({...})` call of
`process_uploaded_files` (src/app.py lines 179-188). -/
def initJob (nFiles : Nat) (startTime : Nat) (selectedTypes : List String) : JobRecord :=
  { status := "queued"
    total_files := nFiles
    processed_count := 0
    current_file := none
    errors := []
    start_time := startTime
    end_time := none
    selected_types := selectedTypes }

/-- The worker's view of `batch_status['data']` at its session id:
`none` when the id was deleted. -/
abbrev Store := Option JobRecord

/-- A mutation `batch_status['data'][session_id]... = ...` performed under the
lock: raises `KeyError` when the record was deleted, otherwise replaces the
record by `f r`. -/
def storeSet (st : Store) (f : JobRecord → JobRecord) : Except String Store :=
  match st with
  | none => Except.error "KeyError"
  | some r => Except.ok (some (f r))

/-- backend/utils.get_upload_path: `os.path.join(config['UPLOAD_FOLDER'],
session_id, filename)`. -/
def getUploadPath (sessionId : String) (fileName : String) (uploadFolder : String) : String :=
  uploadFolder ++ "/" ++ sessionId ++ "/" ++ fileName

/-- Behaviour of one timeout-wrapped external call (`with timeout_handler(s): ...`):
it returns, the alarm fires (`TimeoutError`), or the collaborator raises. -/
inductive StepOutcome where
  | ok
  | timeout (msg : String)
  | exn (msg : String)
  deriving Repr, DecidableEq

/-- Environment fixing what the external world does for one file: whether
`os.path.exists(file_path)` holds, how the spectrogram step and the feature
step behave, and the feature mapping returned when both steps succeed
(`[]` models a falsy empty mapping). -/
structure FileRun where
  present : Bool
  spec : StepOutcome
  feat : StepOutcome
  features : List (String × Int)
  deriving Repr, DecidableEq

/-- The `str(e)` of the exception caught at src/batch_processor.py line 114
for one file's two analysis steps, or `none` when both steps succeeded.
A `TimeoutError` of the spectrogram step is re-raised at line 92 as
`Exception("Processing timeout: ...")`; one of the feature step is re-raised
at line 102 as `Exception("Feature extraction timeout: ...")`; the first
raise aborts the inner try block, so the feature step only matters when the
spectrogram step succeeded. -/
def fileException (fr : FileRun) : Option String :=
  match fr.spec with
  | StepOutcome.timeout m => some ("Processing timeout: " ++ m)
  | StepOutcome.exn m => some m
  | StepOutcome.ok =>
    match fr.feat with
    | StepOutcome.timeout m => some ("Feature extraction timeout: " ++ m)
    | StepOutcome.exn m => some m
    | StepOutcome.ok => none

/-- Result of the per-file loop: either it finished (`ok` with the final
store, the accumulated `all_features` and the trace of store states after
each mutation) or a mutation raised (`exn` with the store and trace at the
raise). -/
inductive LoopOutcome where
  | ok (st : Store) (acc : List FeatRecord) (tr : List Store)
  | exn (msg : String) (st : Store) (tr : List Store)
  deriving Repr, DecidableEq

/-- The `for i, file_info in enumerate(self.file_list)` loop of
`BatchProcessor.process` (src/batch_processor.py lines 56-128). Each store
mutation appends the resulting store state to the trace `tr`. A missing
upload appends an error entry and `continue`s (line 79), which skips the
`processed_count` update of lines 126-127; any caught analysis failure
appends an error entry and falls through to that update. -/
def processLoop (sessionId uploadFolder : String) :
    List (FileInfo × FileRun) → Nat → Store → List FeatRecord → List Store → LoopOutcome
  | [], _, st, acc, tr => LoopOutcome.ok st acc tr
  | (fi, fr) :: rest, i, st, acc, tr =>
    match storeSet st (fun r => { r with current_file := some fi.saved_name }) with
    | Except.error e => LoopOutcome.exn e st tr
    | Except.ok st1 =>
      if fr.present then
        match fileException fr with
        | some m =>
          match storeSet st1 (fun r =>
              { r with errors := r.errors ++ [{ file := fi.saved_name, message := m }] }) with
          | Except.error e => LoopOutcome.exn e st1 (tr ++ [st1])
          | Except.ok st2 =>
            match storeSet st2 (fun r => { r with processed_count := i + 1 }) with
            | Except.error e => LoopOutcome.exn e st2 (tr ++ [st1] ++ [st2])
            | Except.ok st3 =>
              processLoop sessionId uploadFolder rest (i + 1) st3 acc (tr ++ [st1] ++ [st2] ++ [st3])
        | none =>
          let acc2 := if fr.features = [] then acc else
            acc ++ [{ features := fr.features, filename := fi.original_name,
                      session_id := sessionId }]
          match storeSet st1 (fun r => { r with processed_count := i + 1 }) with
          | Except.error e => LoopOutcome.exn e st1 (tr ++ [st1])
          | Except.ok st2 =>
            processLoop sessionId uploadFolder rest (i + 1) st2 acc2 (tr ++ [st1] ++ [st2])
      else
        match storeSet st1 (fun r =>
            { r with errors := r.errors ++
                [{ file := fi.saved_name,
                   message := "File not found: " ++
                     getUploadPath sessionId fi.saved_name uploadFolder }] }) with
        | Except.error e => LoopOutcome.exn e st1 (tr ++ [st1])
        | Except.ok st2 =>
          processLoop sessionId uploadFolder rest (i + 1) st2 acc (tr ++ [st1] ++ [st2])

/-- BatchProcessor._save_features (src/batch_processor.py lines 168-190),
returning the list of artifact files it wrote. An empty `features_list`
returns at line 171 before writing anything. `importErr` models the
`import pandas as pd` / `import json` lines 173-174 raising (they sit
before the inner try, so such a failure propagates to the caller);
`writeErr` models a failure inside the inner try block, which the
`except` at line 189 swallows after logging, writing nothing durable. -/
def saveFeatures (featuresList : List FeatRecord) (importErr : Option String)
    (writeErr : Option String) : Except String (List String) :=
  if featuresList = [] then Except.ok []
  else
    match importErr with
    | some e => Except.error e
    | none =>
      match writeErr with
      | some _ => Except.ok []
      | none => Except.ok ["features.csv", "features.json"]

/-- Result of the try block of `BatchProcessor.process` (lines 47-150). -/
inductive TryOutcome where
  | ok (st : Store) (acc : List FeatRecord) (written : List String) (tr : List Store)
  | exn (msg : String) (st : Store) (tr : List Store)
  deriving Repr, DecidableEq

/-- The try block of `BatchProcessor.process` (src/batch_processor.py lines
47-150): set status to running, run the per-file loop, attempt
`_save_features` (its raise caught at lines 134-140, appending a
FEATURE_SAVE error entry), then mark the job completed with `end_time`. -/
def processTry (sessionId uploadFolder : String) (pairs : List (FileInfo × FileRun))
    (importErr writeErr : Option String) (endTime : Nat) (st0 : Store) : TryOutcome :=
  match storeSet st0 (fun r => { r with status := "running" }) with
  | Except.error e => TryOutcome.exn e st0 []
  | Except.ok st1 =>
    match processLoop sessionId uploadFolder pairs 0 st1 [] [st1] with
    | LoopOutcome.exn e st tr => TryOutcome.exn e st tr
    | LoopOutcome.ok st2 acc tr =>
      match saveFeatures acc importErr writeErr with
      | Except.ok written =>
        match storeSet st2 (fun r =>
            { r with status := "completed", current_file := none,
                     end_time := some endTime }) with
        | Except.error e => TryOutcome.exn e st2 tr
        | Except.ok st4 => TryOutcome.ok st4 acc written (tr ++ [st4])
      | Except.error e =>
        match storeSet st2 (fun r =>
            { r with errors := r.errors ++
                [{ file := "FEATURE_SAVE", message := "Error saving features: " ++ e }] }) with
        | Except.error e2 => TryOutcome.exn e2 st2 tr
        | Except.ok st3 =>
          match storeSet st3 (fun r =>
              { r with status := "completed", current_file := none,
                       end_time := some endTime }) with
          | Except.error e2 => TryOutcome.exn e2 st3 (tr ++ [st3])
          | Except.ok st4 => TryOutcome.ok st4 acc [] (tr ++ [st3] ++ [st4])

/-- Result of one whole worker run: `finished` when `BatchProcessor.process`
returned normally, `crashed` when an exception escaped it (killing the
daemon thread). -/
inductive ProcessOutcome where
  | finished (st : Store) (written : List String) (tr : List Store)
  | crashed (msg : String) (st : Store) (tr : List Store)
  deriving Repr, DecidableEq

/-- BatchProcessor.process (src/batch_processor.py lines 45-166): the try
block, and on an escaped exception the except branch of lines 152-165,
which marks the job failed with `end_time` and appends a BATCH_PROCESSOR
error entry; those two mutations themselves raise `KeyError` when the
record was deleted, and such a raise escapes `process` entirely. -/
def process (sessionId uploadFolder : String) (pairs : List (FileInfo × FileRun))
    (importErr writeErr : Option String) (endTime : Nat) (st0 : Store) : ProcessOutcome :=
  match processTry sessionId uploadFolder pairs importErr writeErr endTime st0 with
  | TryOutcome.ok st _ written tr => ProcessOutcome.finished st written tr
  | TryOutcome.exn e st tr =>
    match storeSet st (fun r =>
        { r with status := "failed", current_file := none, end_time := some endTime }) with
    | Except.error e2 => ProcessOutcome.crashed e2 st tr
    | Except.ok stF =>
      match storeSet stF (fun r =>
          { r with errors := r.errors ++
              [{ file := "BATCH_PROCESSOR",
                 message := "Batch processing failed: " ++ e }] }) with
      | Except.error e2 => ProcessOutcome.crashed e2 stF (tr ++ [stF])
      | Except.ok stF2 => ProcessOutcome.finished stF2 [] (tr ++ [stF] ++ [stF2])

/-- One session's record in `batch_status['data']`: the `files`/`upload_time`
part written by `upload_files_only` (src/app.py lines 87-94), plus the
processing fields, absent (`none`) until `process_uploaded_files` runs. -/
structure SessionRecord where
  files : List FileInfo
  job : Option JobRecord
  deriving Repr, DecidableEq

/-- The store as seen by the HTTP handlers, at one session id. -/
abbrev SessionStore := Option SessionRecord

/-- Response of the `/batch_status` endpoint (src/app.py lines 215-223). -/
structure StatusResponse where
  status : String
  processed_count : Nat
  total_files : Nat
  current_file : Option String
  progress_percent : Rat
  errors : List ErrorEntry
  end_time : Option Nat
  deriving Repr, DecidableEq

/-- app.get_batch_status (src/app.py lines 198-223). Missing session id is a
404 `Session not found`; otherwise each field is read with
`session_data.get(...)` and its default: a record whose processing fields
were never initialized reports status `'unknown'`, counts `0`, and empty
errors. Python's float division is modelled exactly by `Rat`. -/
def getBatchStatus (store : SessionStore) : Except String StatusResponse :=
  match store with
  | none => Except.error "Session not found"
  | some sd =>
    let processed : Nat := match sd.job with | none => 0 | some j => j.processed_count
    let total : Nat := match sd.job with | none => 0 | some j => j.total_files
    Except.ok
      { status := match sd.job with | none => "unknown" | some j => j.status
        processed_count := processed
        total_files := total
        current_file := sd.job.bind (fun j => j.current_file)
        progress_percent := if total > 0 then (processed : Rat) / (total : Rat) * 100 else 0
        errors := match sd.job with | none => [] | some j => j.errors
        end_time := sd.job.bind (fun j => j.end_time) }

/-- config.AVAILABLE_SPECTROGRAMS (src/config.py lines 13-20). -/
def availableSpectrograms : List String :=
  ["mel", "cqt", "log_stft", "wavelet", "spectral_kurtosis", "modulation"]

/-- app.process_uploaded_files (src/app.py lines 149-196), up to spawning the
worker: rejects an empty or invalid `selected_types`, rejects a missing
session (`Session not found`) or an empty file list, and otherwise
overwrites the session's processing fields with a fresh queued job,
returning the updated record and the file list handed to the worker. -/
def processUploadedFiles (store : SessionStore) (selectedTypes : List String)
    (startTime : Nat) : Except String (SessionRecord × List FileInfo) :=
  if selectedTypes = [] then Except.error "No spectrogram types selected"
  else
    match selectedTypes.find? (fun t => !availableSpectrograms.contains t) with
    | some t => Except.error ("Invalid spectrogram type: " ++ t)
    | none =>
      match store with
      | none => Except.error "Session not found"
      | some sd =>
        if sd.files = [] then Except.error "No files to process"
        else Except.ok
          ({ sd with job := some (initJob sd.files.length startTime selectedTypes) }, sd.files)

/-- app.delete_session (src/app.py lines 290-303): clears the session's files
on disk (not modelled) and removes the record from `batch_status['data']`,
so the id maps to nothing afterwards. -/
def deleteSession (_store : SessionStore) : SessionStore := none

/-- The error entry the loop records for one file, if any: the
`File not found` entry for a missing upload (lines 74-78), or the caught
analysis exception's entry (lines 119-123). -/
def failureEntry (sessionId uploadFolder : String) (fi : FileInfo) (fr : FileRun) :
    Option ErrorEntry :=
  if fr.present then
    (fileException fr).map (fun m => { file := fi.saved_name, message := m })
  else
    some { file := fi.saved_name,
           message := "File not found: " ++ getUploadPath sessionId fi.saved_name uploadFolder }

/-- The record the loop appends to `all_features` for one file, if any: only
a present file whose two steps succeeded with a non-empty feature mapping
contributes (lines 104-107). -/
def collectedFeature (sessionId : String) (fi : FileInfo) (fr : FileRun) : Option FeatRecord :=
  if fr.present then
    match fileException fr with
    | some _ => none
    | none =>
      if fr.features = [] then none
      else some { features := fr.features, filename := fi.original_name,
                  session_id := sessionId }
  else none

/-- The FEATURE_SAVE error entry appended at src/batch_processor.py lines 136-140. -/
def featureSaveEntry (e : String) : ErrorEntry :=
  { file := "FEATURE_SAVE", message := "Error saving features: " ++ e }

def fileA : FileInfo := { original_name := "a.wav", saved_name := "a.wav" }

def fileB : FileInfo := { original_name := "b.wav", saved_name := "b.wav" }

def runMissing : FileRun :=
  { present := false, spec := StepOutcome.ok, feat := StepOutcome.ok, features := [] }

def runTimeout : FileRun :=
  { present := true, spec := StepOutcome.timeout "Operation timed out after 300 seconds",
    feat := StepOutcome.ok, features := [] }

def runOk : FileRun :=
  { present := true, spec := StepOutcome.ok, feat := StepOutcome.ok, features := [("rms", 3)] }

def runOkEmpty : FileRun :=
  { present := true, spec := StepOutcome.ok, feat := StepOutcome.ok, features := [] }

def demoPollStore : SessionStore :=
  some { files := [fileA],
         job := some { status := "running", total_files := 2, processed_count := 1,
                       current_file := some "a.wav", errors := [], start_time := 3,
                       end_time := none, selected_types := ["mel"] } }

/-- Invariant of the per-file loop run against a store whose record is present
(no concurrent deletion): the loop finishes without raising, the record keeps
its status, timestamps and metadata, accumulates exactly one error entry per
failed file and one feature record per file with non-empty features, and every
store state it publishes keeps the incoming status and end_time. -/
theorem processLoop_some (sid uf : String) :
    ∀ (pairs : List (FileInfo × FileRun)) (i : Nat) (r : JobRecord)
      (acc : List FeatRecord) (tr : List Store),
      ∃ r' acc' tr',
        processLoop sid uf pairs i (some r) acc tr = LoopOutcome.ok (some r') acc' tr' ∧
        r'.status = r.status ∧ r'.end_time = r.end_time ∧
        r'.total_files = r.total_files ∧ r'.start_time = r.start_time ∧
        r'.selected_types = r.selected_types ∧
        r'.errors = r.errors ++ pairs.filterMap (fun p => failureEntry sid uf p.1 p.2) ∧
        acc' = acc ++ pairs.filterMap (fun p => collectedFeature sid p.1 p.2) ∧
        ∀ s ∈ tr', s ∈ tr ∨ ∃ q, s = some q ∧ q.status = r.status ∧ q.end_time = r.end_time := by
  intro pairs
  induction pairs with
  | nil =>
    intro i r acc tr
    exact ⟨r, acc, tr, by simp [processLoop], rfl, rfl, rfl, rfl, rfl, by simp, by simp,
      fun s hs => Or.inl hs⟩
  | cons p rest ih =>
    obtain ⟨fi, fr⟩ := p
    intro i r acc tr
    by_cases hp : fr.present
    · rcases hfe : fileException fr with _ | m
      · -- both steps succeeded
        by_cases hfs : fr.features = []
        · obtain ⟨r', acc', tr', heq, hst, het, htf, hstt, hsel, herr, hacc, htr⟩ :=
            ih (i + 1)
              { r with current_file := some fi.saved_name, processed_count := i + 1 }
              acc
              (tr ++ [some { r with current_file := some fi.saved_name }] ++
                [some { r with current_file := some fi.saved_name, processed_count := i + 1 }])
          refine ⟨r', acc', tr', ?_, hst, het, htf, hstt, hsel, ?_, ?_, ?_⟩
          · rw [← heq]
            simp [processLoop, storeSet, hp, hfe, hfs]
          · rw [herr]
            simp [failureEntry, hp, hfe]
          · rw [hacc]
            simp [collectedFeature, hp, hfe, hfs]
          · intro s hs
            rcases htr s hs with h | ⟨q, hq, hq1, hq2⟩
            · simp only [List.mem_append, List.mem_singleton] at h
              rcases h with (h | h) | h
              · exact Or.inl h
              · exact Or.inr ⟨_, h, rfl, rfl⟩
              · exact Or.inr ⟨_, h, rfl, rfl⟩
            · exact Or.inr ⟨q, hq, hq1, hq2⟩
        · obtain ⟨r', acc', tr', heq, hst, het, htf, hstt, hsel, herr, hacc, htr⟩ :=
            ih (i + 1)
              { r with current_file := some fi.saved_name, processed_count := i + 1 }
              (acc ++ [{ features := fr.features, filename := fi.original_name,
                         session_id := sid }])
              (tr ++ [some { r with current_file := some fi.saved_name }] ++
                [some { r with current_file := some fi.saved_name, processed_count := i + 1 }])
          refine ⟨r', acc', tr', ?_, hst, het, htf, hstt, hsel, ?_, ?_, ?_⟩
          · rw [← heq]
            simp [processLoop, storeSet, hp, hfe, hfs]
          · rw [herr]
            simp [failureEntry, hp, hfe]
          · rw [hacc]
            simp [collectedFeature, hp, hfe, hfs]
          · intro s hs
            rcases htr s hs with h | ⟨q, hq, hq1, hq2⟩
            · simp only [List.mem_append, List.mem_singleton] at h
              rcases h with (h | h) | h
              · exact Or.inl h
              · exact Or.inr ⟨_, h, rfl, rfl⟩
              · exact Or.inr ⟨_, h, rfl, rfl⟩
            · exact Or.inr ⟨q, hq, hq1, hq2⟩
      · -- a caught per-file analysis failure
        obtain ⟨r', acc', tr', heq, hst, het, htf, hstt, hsel, herr, hacc, htr⟩ :=
          ih (i + 1)
            { r with current_file := some fi.saved_name,
                     errors := r.errors ++ [{ file := fi.saved_name, message := m }],
                     processed_count := i + 1 }
            acc
            (tr ++ [some { r with current_file := some fi.saved_name }] ++
              [some { r with current_file := some fi.saved_name,
                             errors := r.errors ++ [{ file := fi.saved_name, message := m }] }] ++
              [some { r with current_file := some fi.saved_name,
                             errors := r.errors ++ [{ file := fi.saved_name, message := m }],
                             processed_count := i + 1 }])
        refine ⟨r', acc', tr', ?_, hst, het, htf, hstt, hsel, ?_, ?_, ?_⟩
        · rw [← heq]
          simp [processLoop, storeSet, hp, hfe]
        · rw [herr]
          simp [failureEntry, hp, hfe]
        · rw [hacc]
          simp [collectedFeature, hp, hfe]
        · intro s hs
          rcases htr s hs with h | ⟨q, hq, hq1, hq2⟩
          · simp only [List.mem_append, List.mem_singleton] at h
            rcases h with ((h | h) | h) | h
            · exact Or.inl h
            · exact Or.inr ⟨_, h, rfl, rfl⟩
            · exact Or.inr ⟨_, h, rfl, rfl⟩
            · exact Or.inr ⟨_, h, rfl, rfl⟩
          · exact Or.inr ⟨q, hq, hq1, hq2⟩
    · -- missing upload: error entry then continue, skipping the count update
      obtain ⟨r', acc', tr', heq, hst, het, htf, hstt, hsel, herr, hacc, htr⟩ :=
        ih (i + 1)
          { r with current_file := some fi.saved_name,
                   errors := r.errors ++
                     [{ file := fi.saved_name,
                        message := "File not found: " ++ getUploadPath sid fi.saved_name uf }] }
          acc
          (tr ++ [some { r with current_file := some fi.saved_name }] ++
            [some { r with current_file := some fi.saved_name,
                           errors := r.errors ++
                             [{ file := fi.saved_name,
                                message := "File not found: " ++
                                  getUploadPath sid fi.saved_name uf }] }])
      refine ⟨r', acc', tr', ?_, hst, het, htf, hstt, hsel, ?_, ?_, ?_⟩
      · rw [← heq]
        simp [processLoop, storeSet, hp]
      · rw [herr]
        simp [failureEntry, hp]
      · rw [hacc]
        simp [collectedFeature, hp]
      · intro s hs
        rcases htr s hs with h | ⟨q, hq, hq1, hq2⟩
        · simp only [List.mem_append, List.mem_singleton] at h
          rcases h with (h | h) | h
          · exact Or.inl h
          · exact Or.inr ⟨_, h, rfl, rfl⟩
          · exact Or.inr ⟨_, h, rfl, rfl⟩
        · exact Or.inr ⟨q, hq, hq1, hq2⟩

/-- Characterization of a full worker run started on a freshly initialized,
never-deleted record: the worker finishes normally, the job ends completed
with end_time set, the errors are exactly one entry per failed file plus a
FEATURE_SAVE entry exactly when `_save_features` raised, the written
artifacts are those `_save_features` reported, and every earlier published
state is non-terminal with an unset end_time. -/
theorem process_from_init (sid uf : String) (pairs : List (FileInfo × FileRun))
    (iE wE : Option String) (nFiles t0 tEnd : Nat) (sel : List String) :
    ∃ r trPrev,
      process sid uf pairs iE wE tEnd (some (initJob nFiles t0 sel)) =
        ProcessOutcome.finished (some r)
          (match saveFeatures (pairs.filterMap fun p => collectedFeature sid p.1 p.2) iE wE with
           | Except.ok ws => ws
           | Except.error _ => []) (trPrev ++ [some r]) ∧
      r.status = "completed" ∧ r.current_file = none ∧ r.end_time = some tEnd ∧
      r.total_files = nFiles ∧ r.start_time = t0 ∧ r.selected_types = sel ∧
      r.errors = pairs.filterMap (fun p => failureEntry sid uf p.1 p.2) ++
        (match saveFeatures (pairs.filterMap fun p => collectedFeature sid p.1 p.2) iE wE with
         | Except.ok _ => []
         | Except.error e => [featureSaveEntry e]) ∧
      ∀ q, (some q : Store) ∈ (some (initJob nFiles t0 sel) : Store) :: trPrev →
        q.end_time = none ∧ (q.status = "queued" ∨ q.status = "running") := by
  obtain ⟨r2, acc2, tr2, heq, hst, het, htf, hstt, hsel, herr, hacc, htr⟩ :=
    processLoop_some sid uf pairs 0 { initJob nFiles t0 sel with status := "running" } []
      [some { initJob nFiles t0 sel with status := "running" }]
  simp only [List.nil_append] at hacc
  subst hacc
  have htrq : ∀ q : JobRecord, (some q : Store) ∈ tr2 →
      q.end_time = none ∧ (q.status = "queued" ∨ q.status = "running") := by
    intro q hq
    rcases htr (some q) hq with h | ⟨q', hq', hq1, hq2⟩
    · simp only [List.mem_singleton, Option.some.injEq] at h
      subst h
      exact ⟨rfl, Or.inr rfl⟩
    · rcases Option.some.injEq .. |>.mp hq' with rfl
      exact ⟨hq2, Or.inr hq1⟩
  cases hsv : saveFeatures (pairs.filterMap fun p => collectedFeature sid p.1 p.2) iE wE with
  | ok ws =>
    refine ⟨{ r2 with status := "completed", current_file := none, end_time := some tEnd },
      tr2, ?_, rfl, rfl, rfl, htf, hstt, hsel, ?_, ?_⟩
    · simp only [process, processTry, storeSet, heq, hsv]
    · simpa using herr
    · intro q hq
      rcases List.mem_cons.mp hq with h | h
      · rcases Option.some.injEq .. |>.mp h with rfl
        exact ⟨rfl, Or.inl rfl⟩
      · exact htrq q h
  | error e =>
    refine ⟨{ r2 with errors := r2.errors ++ [featureSaveEntry e],
                      status := "completed", current_file := none, end_time := some tEnd },
      tr2 ++ [some { r2 with errors := r2.errors ++ [featureSaveEntry e] }],
      ?_, rfl, rfl, rfl, htf, hstt, hsel, ?_, ?_⟩
    · simp only [process, processTry, storeSet, heq, hsv, featureSaveEntry]
    · rw [herr]
      simp [initJob]
    · intro q hq
      rcases List.mem_cons.mp hq with h | h
      · rcases Option.some.injEq .. |>.mp h with rfl
        exact ⟨rfl, Or.inl rfl⟩
      · rcases List.mem_append.mp h with h | h
        · exact htrq q h
        · simp only [List.mem_singleton, Option.some.injEq] at h
          subst h
          exact ⟨het, Or.inr hst⟩

theorem collectedFeature_eq_none_of_failure (sid : String) (fi : FileInfo) (fr : FileRun)
    (h : fr.present = false ∨ (fileException fr).isSome) :
    collectedFeature sid fi fr = none := by
  rcases h with h | h
  · simp [collectedFeature, h]
  · obtain ⟨m, hm⟩ := Option.isSome_iff_exists.mp h
    by_cases hp : fr.present <;> simp [collectedFeature, hp, hm]

theorem failureEntry_isSome_of_failure (sid uf : String) (fi : FileInfo) (fr : FileRun)
    (h : fr.present = false ∨ (fileException fr).isSome) :
    (failureEntry sid uf fi fr).isSome := by
  rcases h with h | h
  · simp [failureEntry, h]
  · obtain ⟨m, hm⟩ := Option.isSome_iff_exists.mp h
    by_cases hp : fr.present <;> simp [failureEntry, hp, hm]

theorem length_filterMap_of_isSome {α β : Type} (f : α → Option β) :
    ∀ l : List α, (∀ a ∈ l, (f a).isSome) → (l.filterMap f).length = l.length := by
  intro l
  induction l with
  | nil => intro; simp
  | cons a t ih =>
    intro h
    obtain ⟨b, hb⟩ := Option.isSome_iff_exists.mp (h a (by simp))
    simp [List.filterMap_cons, hb, ih fun x hx => h x (by simp [hx])]

/-- C1: refuted by the code. A one-file job whose upload is missing runs the
loop to the end without any unexpected fault and finishes `completed`, yet
its final `processed_count` is `0`, not `total_files = 1`: the `continue` at
src/batch_processor.py line 79 skips the update of lines 126-127, despite
the comment there saying it runs regardless of success or failure. -/
theorem c1_missing_upload_breaks_processed_count :
    process "s" "uploads" [(fileA, runMissing)] none none 99 (some (initJob 1 5 ["mel"])) =
    ProcessOutcome.finished
      (some { status := "completed", total_files := 1, processed_count := 0,
              current_file := none,
              errors := [{ file := "a.wav", message := "File not found: uploads/s/a.wav" }],
              start_time := 5, end_time := some 99, selected_types := ["mel"] })
      []
      [some { status := "running", total_files := 1, processed_count := 0,
              current_file := none, errors := [], start_time := 5, end_time := none,
              selected_types := ["mel"] },
       some { status := "running", total_files := 1, processed_count := 0,
              current_file := some "a.wav", errors := [], start_time := 5, end_time := none,
              selected_types := ["mel"] },
       some { status := "running", total_files := 1, processed_count := 0,
              current_file := some "a.wav",
              errors := [{ file := "a.wav", message := "File not found: uploads/s/a.wav" }],
              start_time := 5, end_time := none, selected_types := ["mel"] },
       some { status := "completed", total_files := 1, processed_count := 0,
              current_file := none,
              errors := [{ file := "a.wav", message := "File not found: uploads/s/a.wav" }],
              start_time := 5, end_time := some 99, selected_types := ["mel"] }] := by
  rfl

/-- C2: refuted by the code. After `delete_session` removes the record, a
status query does return `Session not found`, but a worker store mutation is
not a no-op: it raises `KeyError`, and a whole worker run against the deleted
record escapes `process` with that `KeyError` (the failed-marking mutation of
the except branch raises too), crashing the worker thread. -/
theorem c2_deleted_record_mutation_raises :
    getBatchStatus (deleteSession (some { files := [fileA], job := some (initJob 1 5 ["mel"]) })) =
      Except.error "Session not found" ∧
    storeSet
      ((deleteSession (some { files := [fileA], job := some (initJob 1 5 ["mel"]) })).bind
        (fun sd => sd.job))
      (fun r => { r with status := "running" }) = Except.error "KeyError" ∧
    process "s" "uploads" [(fileA, runOk)] none none 99
      ((deleteSession (some { files := [fileA], job := some (initJob 1 5 ["mel"]) })).bind
        (fun sd => sd.job)) =
      ProcessOutcome.crashed "KeyError" none [] :=
  ⟨rfl, rfl, rfl⟩

/-- C8 counterexample: a record created by `upload_files_only` but not yet
submitted for processing exists in the store, and polling it returns status
`'unknown'`, which is none of the four documented values. -/
theorem c8_counterexample :
    getBatchStatus (some { files := [fileA], job := none }) =
      Except.ok { status := "unknown", processed_count := 0, total_files := 0,
                  current_file := none, progress_percent := 0, errors := [],
                  end_time := none } ∧
    ¬ ("unknown" = "queued" ∨ "unknown" = "running" ∨ "unknown" = "completed" ∨
       "unknown" = "failed") :=
  ⟨rfl, by decide⟩

/-- C6 counterexample: a session whose id already carries a finished job is
not rejected with a DuplicateJob error by `process_uploaded_files`; the
request succeeds and silently resets the job's processing state to a fresh
queued record. -/
theorem c6_counterexample :
    processUploadedFiles
      (some { files := [fileA],
              job := some { status := "completed", total_files := 1, processed_count := 1,
                            current_file := none, errors := [], start_time := 5,
                            end_time := some 9, selected_types := ["mel"] } })
      ["mel"] 20 =
    Except.ok ({ files := [fileA], job := some (initJob 1 20 ["mel"]) }, [fileA]) := by
  rfl

/-- C4 counterexample: in a two-file run the store state published by the
per-file update after file 1 (trace index 2) still carries
`current_file = some "f1.wav"` with `processed_count = 1 < total_files = 2`:
the update of src/batch_processor.py lines 126-127 does not clear
`current_file` while later files are pending. -/
theorem c4_counterexample :
    (match process "s" "uploads"
        [({ original_name := "f1.wav", saved_name := "f1.wav" }, runOk),
         ({ original_name := "f2.wav", saved_name := "f2.wav" }, runOk)]
        none none 99 (some (initJob 2 10 ["mel"])) with
     | ProcessOutcome.finished _ _ tr => tr.get? 2
     | ProcessOutcome.crashed _ _ _ => none) =
    some (some { status := "running", total_files := 2, processed_count := 1,
                 current_file := some "f1.wav", errors := [], start_time := 10,
                 end_time := none, selected_types := ["mel"] }) := by
  rfl

/-- C9: the progress percentage reported by a successful status poll is `0`
when the reported `total_files` is `0` and `processed_count / total_files *
100` otherwise, computed from the very counts returned in the same
response. -/
theorem c9_progress_percent (store : SessionStore) (resp : StatusResponse)
    (h : getBatchStatus store = Except.ok resp) :
    resp.progress_percent =
      if resp.total_files = 0 then 0
      else (resp.processed_count : Rat) / (resp.total_files : Rat) * 100 := by
  cases store with
  | none => simp [getBatchStatus] at h
  | some sd =>
    simp only [getBatchStatus, Except.ok.injEq] at h
    subst h
    by_cases ht : (match sd.job with | none => 0 | some j => j.total_files) = 0
    · simp [ht]
    · simp [ht, Nat.pos_of_ne_zero ht]

/-- Witness for C9 at a concrete store with one of two files processed. -/
theorem c9_witness :
    ∃ resp, getBatchStatus demoPollStore = Except.ok resp ∧
      resp.progress_percent =
        if resp.total_files = 0 then 0
        else (resp.processed_count : Rat) / (resp.total_files : Rat) * 100 :=
  ⟨_, rfl, c9_progress_percent demoPollStore _ rfl⟩

/-- C3: every per-file failure (missing upload, analysis-step timeout, or
analysis exception) is caught and recorded as exactly one {file, message}
error entry, processing continues (each failed file contributes its own
entry), and a job in which every file failed still finishes the loop and
reaches terminal status completed. -/
theorem c3_per_file_failures_isolated (sid uf : String) (pairs : List (FileInfo × FileRun))
    (iE wE : Option String) (nFiles t0 tEnd : Nat) (sel : List String)
    (h : ∀ p ∈ pairs, p.2.present = false ∨ (fileException p.2).isSome) :
    ∃ r trPrev,
      process sid uf pairs iE wE tEnd (some (initJob nFiles t0 sel)) =
        ProcessOutcome.finished (some r) [] (trPrev ++ [some r]) ∧
      r.status = "completed" ∧ r.end_time = some tEnd ∧
      r.errors = pairs.filterMap (fun p => failureEntry sid uf p.1 p.2) ∧
      r.errors.length = pairs.length := by
  obtain ⟨r, trPrev, hrun, hst, hcf, het, htf, htt, hsel, herr, htr⟩ :=
    process_from_init sid uf pairs iE wE nFiles t0 tEnd sel
  have hcoll : pairs.filterMap (fun p => collectedFeature sid p.1 p.2) = [] := by
    rw [List.filterMap_eq_nil_iff]
    intro p hp
    exact collectedFeature_eq_none_of_failure sid p.1 p.2 (h p hp)
  have hsv : saveFeatures [] iE wE = Except.ok [] := by simp [saveFeatures]
  simp only [hcoll, hsv, List.append_nil] at hrun herr
  refine ⟨r, trPrev, hrun, hst, het, herr, ?_⟩
  rw [herr]
  exact length_filterMap_of_isSome _ pairs
    (fun p hp => failureEntry_isSome_of_failure sid uf p.1 p.2 (h p hp))

/-- Witness for C3: a two-file job where file a.wav's upload is missing and
file b.wav's spectrogram step times out still completes, with one error
entry per file. -/
theorem c3_witness :
    (∀ p ∈ [(fileA, runMissing), (fileB, runTimeout)],
      p.2.present = false ∨ (fileException p.2).isSome) ∧
    (∃ r trPrev,
      process "s" "uploads" [(fileA, runMissing), (fileB, runTimeout)] none none 99
          (some (initJob 2 5 ["mel"])) =
        ProcessOutcome.finished (some r) [] (trPrev ++ [some r]) ∧
      r.status = "completed" ∧ r.end_time = some 99 ∧
      r.errors = [(fileA, runMissing), (fileB, runTimeout)].filterMap
        (fun p => failureEntry "s" "uploads" p.1 p.2) ∧
      r.errors.length = [(fileA, runMissing), (fileB, runTimeout)].length) :=
  ⟨by decide,
   c3_per_file_failures_isolated "s" "uploads" [(fileA, runMissing), (fileB, runTimeout)]
     none none 2 5 99 ["mel"] (by decide)⟩

/-- C5: whenever the aggregate `_save_features` step raises, the worker
appends exactly one additional FEATURE_SAVE error entry after the per-file
entries, and the job still reaches terminal status completed, not failed. -/
theorem c5_feature_save_failure_completed (sid uf : String)
    (pairs : List (FileInfo × FileRun)) (iE wE : Option String)
    (nFiles t0 tEnd : Nat) (sel : List String) (e : String)
    (hsv : saveFeatures (pairs.filterMap fun p => collectedFeature sid p.1 p.2) iE wE =
      Except.error e) :
    ∃ r trPrev,
      process sid uf pairs iE wE tEnd (some (initJob nFiles t0 sel)) =
        ProcessOutcome.finished (some r) [] (trPrev ++ [some r]) ∧
      r.status = "completed" ∧ r.end_time = some tEnd ∧
      r.errors = pairs.filterMap (fun p => failureEntry sid uf p.1 p.2) ++
        [featureSaveEntry e] := by
  obtain ⟨r, trPrev, hrun, hst, hcf, het, htf, htt, hsel, herr, htr⟩ :=
    process_from_init sid uf pairs iE wE nFiles t0 tEnd sel
  simp only [hsv] at hrun herr
  exact ⟨r, trPrev, hrun, hst, het, herr⟩

/-- Witness for C5: one file extracts features, but `import pandas` raises
inside `_save_features`; the job still completes with one FEATURE_SAVE
entry. -/
theorem c5_witness :
    saveFeatures ([(fileA, runOk)].filterMap fun p => collectedFeature "s" p.1 p.2)
      (some "No module named pandas") none = Except.error "No module named pandas" ∧
    (∃ r trPrev,
      process "s" "uploads" [(fileA, runOk)] (some "No module named pandas") none 99
          (some (initJob 1 5 ["mel"])) =
        ProcessOutcome.finished (some r) [] (trPrev ++ [some r]) ∧
      r.status = "completed" ∧ r.end_time = some 99 ∧
      r.errors = [(fileA, runOk)].filterMap (fun p => failureEntry "s" "uploads" p.1 p.2) ++
        [featureSaveEntry "No module named pandas"]) :=
  ⟨rfl,
   c5_feature_save_failure_completed "s" "uploads" [(fileA, runOk)]
     (some "No module named pandas") none 1 5 99 ["mel"] "No module named pandas" rfl⟩

/-- C10: when no file contributes a non-empty feature mapping, the aggregate
save step returns immediately: no artifact file is written (`[]`), no error
entry is appended beyond the per-file ones, and the job still ends
completed — whatever `_save_features` would have done had it run. -/
theorem c10_empty_features_skip_save (sid uf : String) (pairs : List (FileInfo × FileRun))
    (iE wE : Option String) (nFiles t0 tEnd : Nat) (sel : List String)
    (h : ∀ p ∈ pairs, collectedFeature sid p.1 p.2 = none) :
    ∃ r trPrev,
      process sid uf pairs iE wE tEnd (some (initJob nFiles t0 sel)) =
        ProcessOutcome.finished (some r) [] (trPrev ++ [some r]) ∧
      r.status = "completed" ∧ r.end_time = some tEnd ∧
      r.errors = pairs.filterMap (fun p => failureEntry sid uf p.1 p.2) := by
  obtain ⟨r, trPrev, hrun, hst, hcf, het, htf, htt, hsel, herr, htr⟩ :=
    process_from_init sid uf pairs iE wE nFiles t0 tEnd sel
  have hcoll : pairs.filterMap (fun p => collectedFeature sid p.1 p.2) = [] := by
    rw [List.filterMap_eq_nil_iff]
    exact h
  have hsv : saveFeatures [] iE wE = Except.ok [] := by simp [saveFeatures]
  simp only [hcoll, hsv, List.append_nil] at hrun herr
  exact ⟨r, trPrev, hrun, hst, het, herr⟩

/-- Witness for C10: one missing file and one file with an empty feature
mapping; even with both save-failure knobs armed nothing is written and no
FEATURE_SAVE entry appears. -/
theorem c10_witness :
    (∀ p ∈ [(fileA, runMissing), (fileB, runOkEmpty)],
      collectedFeature "s" p.1 p.2 = none) ∧
    (∃ r trPrev,
      process "s" "uploads" [(fileA, runMissing), (fileB, runOkEmpty)]
          (some "boom") (some "boom") 99 (some (initJob 2 5 ["mel"])) =
        ProcessOutcome.finished (some r) [] (trPrev ++ [some r]) ∧
      r.status = "completed" ∧ r.end_time = some 99 ∧
      r.errors = [(fileA, runMissing), (fileB, runOkEmpty)].filterMap
        (fun p => failureEntry "s" "uploads" p.1 p.2)) :=
  ⟨by decide,
   c10_empty_features_skip_save "s" "uploads" [(fileA, runMissing), (fileB, runOkEmpty)]
     (some "boom") (some "boom") 2 5 99 ["mel"] (by decide)⟩

/-- C7: along a full run from a freshly initialized record, a published
state's status is terminal (completed or failed) exactly when its end_time
is set, and end_time is set exactly once: every state before the final one
has end_time unset, and the final state is completed with end_time set. -/
theorem c7_terminal_iff_end_time (sid uf : String) (pairs : List (FileInfo × FileRun))
    (iE wE : Option String) (nFiles t0 tEnd : Nat) (sel : List String) :
    ∃ r w trPrev,
      process sid uf pairs iE wE tEnd (some (initJob nFiles t0 sel)) =
        ProcessOutcome.finished (some r) w (trPrev ++ [some r]) ∧
      r.status = "completed" ∧ r.end_time = some tEnd ∧
      (∀ q, (some q : Store) ∈ some (initJob nFiles t0 sel) :: (trPrev ++ [some r]) →
        ((q.status = "completed" ∨ q.status = "failed") ↔ q.end_time ≠ none)) ∧
      (∀ q, (some q : Store) ∈ some (initJob nFiles t0 sel) :: trPrev → q.end_time = none) := by
  obtain ⟨r, trPrev, hrun, hst, hcf, het, htf, htt, hsel, herr, htr⟩ :=
    process_from_init sid uf pairs iE wE nFiles t0 tEnd sel
  refine ⟨r, _, trPrev, hrun, hst, het, ?_, fun q hq => (htr q hq).1⟩
  intro q hq
  rcases List.mem_cons.mp hq with hqi | hq2
  · rcases Option.some.injEq .. |>.mp hqi with rfl
    constructor
    · intro hc
      rcases hc with hc | hc <;> simp [initJob] at hc
    · intro hc
      exact absurd rfl hc
  · rcases List.mem_append.mp hq2 with hq3 | hq3
    · obtain ⟨hqe, hqs⟩ := htr q (List.mem_cons_of_mem _ hq3)
      constructor
      · intro hc
        rcases hqs with hqs | hqs <;> rcases hc with hc | hc <;> rw [hqs] at hc <;>
          exact absurd hc (by decide)
      · intro hc
        exact absurd hqe hc
    · simp only [List.mem_singleton, Option.some.injEq] at hq3
      subst hq3
      constructor
      · intro
        rw [het]
        simp
      · intro
        exact Or.inl hst

/-- C8 amended: once a session's processing fields have been initialized,
every status value a poll can observe along a worker run is one of queued,
running, completed, failed (C8 as stated fails only on records that exist
but were never submitted for processing, which poll as unknown). -/
theorem c8_status_vocabulary_amended (sid uf : String) (pairs : List (FileInfo × FileRun))
    (iE wE : Option String) (nFiles t0 tEnd : Nat) (sel : List String)
    (fls : List FileInfo) :
    ∃ r w trPrev,
      process sid uf pairs iE wE tEnd (some (initJob nFiles t0 sel)) =
        ProcessOutcome.finished (some r) w (trPrev ++ [some r]) ∧
      ∀ q, (some q : Store) ∈ some (initJob nFiles t0 sel) :: (trPrev ++ [some r]) →
        ∀ resp, getBatchStatus (some { files := fls, job := some q }) = Except.ok resp →
          (resp.status = "queued" ∨ resp.status = "running" ∨
           resp.status = "completed" ∨ resp.status = "failed") := by
  obtain ⟨r, trPrev, hrun, hst, hcf, het, htf, htt, hsel, herr, htr⟩ :=
    process_from_init sid uf pairs iE wE nFiles t0 tEnd sel
  refine ⟨r, _, trPrev, hrun, ?_⟩
  intro q hq resp hresp
  simp only [getBatchStatus, Except.ok.injEq] at hresp
  subst hresp
  rcases List.mem_cons.mp hq with hqi | hq2
  · rcases Option.some.injEq .. |>.mp hqi with rfl
    exact Or.inl rfl
  · rcases List.mem_append.mp hq2 with hq3 | hq3
    · rcases (htr q (List.mem_cons_of_mem _ hq3)).2 with hqs | hqs
      · exact Or.inl hqs
      · exact Or.inr (Or.inl hqs)
    · simp only [List.mem_singleton, Option.some.injEq] at hq3
      subst hq3
      exact Or.inr (Or.inr (Or.inl hst))

/-- C4 amended: for a file whose upload is present, the worker performs the
per-file update unconditionally (success or failure), setting
processed_count to i+1 — but this update does not clear current_file, which
still holds the finished file's name; for a file whose upload is missing,
the update is skipped entirely and processed_count is left unchanged. -/
theorem c4_per_file_update_amended (sid uf : String) (fi : FileInfo) (fr : FileRun)
    (rest : List (FileInfo × FileRun)) (i : Nat) (r : JobRecord)
    (acc : List FeatRecord) (tr : List Store) :
    (fr.present = true →
      ∃ r2 acc2 tr2,
        processLoop sid uf ((fi, fr) :: rest) i (some r) acc tr =
          processLoop sid uf rest (i + 1) (some r2) acc2 (tr2 ++ [some r2]) ∧
        r2.processed_count = i + 1 ∧ r2.current_file = some fi.saved_name ∧
        r2.status = r.status) ∧
    (fr.present = false →
      ∃ rm trm,
        processLoop sid uf ((fi, fr) :: rest) i (some r) acc tr =
          processLoop sid uf rest (i + 1) (some rm) acc (trm ++ [some rm]) ∧
        rm.processed_count = r.processed_count ∧ rm.current_file = some fi.saved_name) := by
  constructor
  · intro hp
    rcases hfe : fileException fr with _ | m
    · by_cases hfs : fr.features = []
      · refine ⟨{ r with current_file := some fi.saved_name, processed_count := i + 1 },
          acc, tr ++ [some { r with current_file := some fi.saved_name }], ?_, rfl, rfl, rfl⟩
        simp [processLoop, storeSet, hp, hfe, hfs]
      · refine ⟨{ r with current_file := some fi.saved_name, processed_count := i + 1 },
          acc ++ [{ features := fr.features, filename := fi.original_name,
                    session_id := sid }],
          tr ++ [some { r with current_file := some fi.saved_name }], ?_, rfl, rfl, rfl⟩
        simp [processLoop, storeSet, hp, hfe, hfs]
    · refine ⟨{ r with current_file := some fi.saved_name,
                       errors := r.errors ++ [{ file := fi.saved_name, message := m }],
                       processed_count := i + 1 },
        acc,
        tr ++ [some { r with current_file := some fi.saved_name }] ++
          [some { r with current_file := some fi.saved_name,
                         errors := r.errors ++ [{ file := fi.saved_name, message := m }] }],
        ?_, rfl, rfl, rfl⟩
      simp [processLoop, storeSet, hp, hfe]
  · intro hp
    refine ⟨{ r with current_file := some fi.saved_name,
                     errors := r.errors ++
                       [{ file := fi.saved_name,
                          message := "File not found: " ++
                            getUploadPath sid fi.saved_name uf }] },
      tr ++ [some { r with current_file := some fi.saved_name }], ?_, rfl, rfl⟩
    simp [processLoop, storeSet, hp]

/-- Witness for C4 amended: a present file at index 0 yields a per-file
update state with processed_count 1 that still names the finished file. -/
theorem c4_amended_witness :
    (runOk.present = true →
      ∃ r2 acc2 tr2,
        processLoop "s" "uploads" [(fileA, runOk)] 0 (some (initJob 1 5 ["mel"])) [] [] =
          processLoop "s" "uploads" [] 1 (some r2) acc2 (tr2 ++ [some r2]) ∧
        r2.processed_count = 1 ∧ r2.current_file = some fileA.saved_name ∧
        r2.status = (initJob 1 5 ["mel"]).status) ∧
    (runOk.present = false →
      ∃ rm trm,
        processLoop "s" "uploads" [(fileA, runOk)] 0 (some (initJob 1 5 ["mel"])) [] [] =
          processLoop "s" "uploads" [] 1 (some rm) [] (trm ++ [some rm]) ∧
        rm.processed_count = (initJob 1 5 ["mel"]).processed_count ∧
        rm.current_file = some fileA.saved_name) :=
  c4_per_file_update_amended "s" "uploads" fileA runOk [] 0 (initJob 1 5 ["mel"]) [] []

/-- C6 amended: job creation via process_uploaded_files requires an already
uploaded session: it fails with Session not found when the id is absent, and
when the id exists it succeeds and (re)initializes the processing fields to
a fresh queued job — there is no DuplicateJob rejection. -/
theorem c6_create_amended (sel : List String) (t : Nat) (sd : SessionRecord)
    (hsel : sel ≠ []) (hval : ∀ s ∈ sel, s ∈ availableSpectrograms)
    (hfiles : sd.files ≠ []) :
    processUploadedFiles none sel t = Except.error "Session not found" ∧
    processUploadedFiles (some sd) sel t =
      Except.ok ({ sd with job := some (initJob sd.files.length t sel) }, sd.files) := by
  have hfind : sel.find? (fun s => !availableSpectrograms.contains s) = none := by
    rw [List.find?_eq_none]
    intro s hs
    simp [hval s hs]
  constructor
  · unfold processUploadedFiles
    rw [if_neg hsel, hfind]
  · unfold processUploadedFiles
    rw [if_neg hsel, hfind]
    dsimp only
    rw [if_neg hfiles]

/-- Witness for C6 amended at a concrete one-file session. -/
theorem c6_amended_witness :
    (["mel"] ≠ ([] : List String)) ∧
    (∀ s ∈ ["mel"], s ∈ availableSpectrograms) ∧
    (({ files := [fileA], job := none } : SessionRecord).files ≠ []) ∧
    (processUploadedFiles none ["mel"] 20 = Except.error "Session not found" ∧
     processUploadedFiles (some { files := [fileA], job := none }) ["mel"] 20 =
       Except.ok ({ files := [fileA], job := some (initJob 1 20 ["mel"]) }, [fileA])) :=
  ⟨by decide, by decide, by decide,
   c6_create_amended ["mel"] 20 { files := [fileA], job := none }
     (by decide) (by decide) (by decide)⟩

end Spectro
